import Mathlib

/-
Verification of the affine-localai-proxy request rewriter and streaming
forwarder (src/proxy.py) against its specification.

The embedding models the JSON chat-completion body shallowly:
a `model` field that may be absent, null, or a string; a `messages`
field that may be absent or a list of role/content pairs; and an
opaque list of all other top-level fields. Dictionary or list accesses
that would raise in Python (missing `messages` key, empty list) are
modelled by returning `none` from the rewrite.
-/

namespace Proxy

/-- A chat message: a role and a content string, as in the request JSON. -/
structure Message where
  role : String
  content : String
deriving DecidableEq, Repr

/-- The inbound JSON body. `model = none` means the key is absent,
`model = some none` means the key holds JSON null, `model = some (some s)`
means it holds the string s. `messages = none` means the key is absent.
`extra` holds every other top-level field (stream, temperature,
max_tokens, frequency_penalty, presence_penalty, response_format, user,
and anything else) as opaque key-value pairs never inspected by the code. -/
structure ChatBody where
  model : Option (Option String)
  messages : Option (List Message)
  extra : List (String × String)
deriving DecidableEq, Repr

/-- The ApiConfig of proxy.py restricted to the values the handler reads:
DEFAULT_MODEL, API_KEY, OVERWRITE_SYSTEM_PROMPT, APPEND_SYSTEM_PROMPT.
`none` models an unset environment variable (Python None). -/
structure ApiConfig where
  default_model : Option String
  api_key : Option String
  overwrite_system_prompt : Option String
  append_system_prompt : Option String
deriving DecidableEq, Repr

/-- Python truthiness of an optional string: None and the empty string
are falsy, every other string is truthy. -/
def pyTruthyStr : Option String → Bool
  | none => false
  | some s => s ≠ ""

/-- The Python comparison P != "" on an optional string P; note that
None != "" evaluates to True in Python. -/
def pyNeEmptyStr : Option String → Bool
  | none => true
  | some s => s ≠ ""

/-- The guard used for both prompt settings in handle_chat_completions,
literally P and P != "" in the source. It holds exactly when the prompt
is a set, non-empty string. -/
def promptActive (p : Option String) : Bool :=
  pyTruthyStr p && pyNeEmptyStr p

/-- Lines 77-78 of proxy.py: the model key is overwritten with the
configured default (possibly None) only when the key is present in the
inbound body. -/
def rewriteModel (MODEL : Option String) (body : ChatBody) : ChatBody :=
  if body.model.isSome then { body with model := some MODEL } else body

/-- Lines 79-85 of proxy.py: the overwrite branch replaces the content of
the first message when its role is system and otherwise prepends a fresh
system message; the elif append branch concatenates the first message
content, the two-character source literal backslash-n (Python wrote
the escaped form, not a newline), and the append prompt. Accesses that
would raise KeyError or IndexError return none. -/
def rewritePrompts (cfg : ApiConfig) (body : ChatBody) : Option ChatBody :=
  if promptActive cfg.overwrite_system_prompt then
    match body.messages with
    | none => none
    | some [] => none
    | some (m0 :: rest) =>
      if m0.role = "system" then
        some { body with messages := some ({ m0 with content := cfg.overwrite_system_prompt.getD "" } :: rest) }
      else
        some { body with messages := some (⟨"system", cfg.overwrite_system_prompt.getD ""⟩ :: m0 :: rest) }
  else if promptActive cfg.append_system_prompt then
    match body.messages with
    | none => none
    | some [] => none
    | some (m0 :: rest) =>
      some { body with messages := some ({ m0 with content := m0.content ++ "\\n" ++ cfg.append_system_prompt.getD "" } :: rest) }
  else
    some body

/-- The whole body mutation of handle_chat_completions (lines 77-85):
first the model rewrite, then the prompt rewrite on the result. -/
def rewriteBody (cfg : ApiConfig) (body : ChatBody) : Option ChatBody :=
  rewritePrompts cfg (rewriteModel cfg.default_model body)

/-- Lines 90-92 of proxy_stream: the outbound header dictionary starts
empty and gains an Authorization entry exactly when API_KEY is truthy
and not the empty string. -/
def proxy_headers (API_KEY : Option String) : List (String × String) :=
  if pyTruthyStr API_KEY && pyNeEmptyStr API_KEY then
    [("Authorization", "Bearer " ++ API_KEY.getD "")]
  else
    []

/-- Lines 95-98 of proxy_stream: the async for loop over the received
text chunks yields each chunk unchanged, modelled over a finite list of
upstream chunks. -/
def proxy_stream (upstream : List String) : List String :=
  match upstream with
  | [] => []
  | chunk :: rest => chunk :: proxy_stream rest

/-- The model rewrite never touches the messages field. -/
lemma rewriteModel_messages (MODEL : Option String) (body : ChatBody) :
    (rewriteModel MODEL body).messages = body.messages := by
  unfold rewriteModel
  split <;> rfl

/-- The model rewrite never touches the extra fields. -/
lemma rewriteModel_extra (MODEL : Option String) (body : ChatBody) :
    (rewriteModel MODEL body).extra = body.extra := by
  unfold rewriteModel
  split <;> rfl

/-- When the model key is present, the model rewrite installs the default. -/
lemma rewriteModel_model_of_isSome (MODEL : Option String) (body : ChatBody)
    (hm : body.model.isSome = true) :
    (rewriteModel MODEL body).model = some MODEL := by
  unfold rewriteModel
  rw [if_pos hm]

/-- The prompt rewrite never changes the model field of a body it accepts. -/
lemma rewritePrompts_model (cfg : ApiConfig) (body out : ChatBody)
    (h : rewritePrompts cfg body = some out) :
    out.model = body.model := by
  unfold rewritePrompts at h
  split at h
  · split at h
    · exact absurd h (by simp)
    · exact absurd h (by simp)
    · split at h <;> · cases h; rfl
  · split at h
    · split at h
      · exact absurd h (by simp)
      · exact absurd h (by simp)
      · cases h; rfl
    · cases h; rfl

/-- The prompt rewrite never changes the extra fields of a body it accepts. -/
lemma rewritePrompts_extra (cfg : ApiConfig) (body out : ChatBody)
    (h : rewritePrompts cfg body = some out) :
    out.extra = body.extra := by
  unfold rewritePrompts at h
  split at h
  · split at h
    · exact absurd h (by simp)
    · exact absurd h (by simp)
    · split at h <;> · cases h; rfl
  · split at h
    · split at h
      · exact absurd h (by simp)
      · exact absurd h (by simp)
      · cases h; rfl
    · cases h; rfl

/-- Whenever the full rewrite succeeds, the resulting model field is the
one produced by the model-rewrite step. -/
lemma rewriteBody_model (cfg : ApiConfig) (body out : ChatBody)
    (h : rewriteBody cfg body = some out) :
    out.model = (rewriteModel cfg.default_model body).model :=
  rewritePrompts_model cfg _ out h

/-- C1 counterexample: with default model m configured and an inbound body
whose model key is absent, the rewrite succeeds and forwards the body
unchanged, still lacking the model key, so its model field is not the
configured default: the claim fails when the inbound model field is
absent. -/
theorem C1_counterexample :
    rewriteBody ⟨some "m", none, none, none⟩ ⟨none, some [⟨"user", "hi"⟩], []⟩ =
      some ⟨none, some [⟨"user", "hi"⟩], []⟩ ∧
      (⟨none, some [⟨"user", "hi"⟩], []⟩ : ChatBody).model ≠ some (some "m") := by
  decide

/-- C1 (amended): whenever a default model d is configured and the inbound
body CONTAINS a model key, any body the rewrite forwards has its model
field equal to d, regardless of the inbound value of that key. -/
theorem C1_default_model_overwrites (cfg : ApiConfig) (body out : ChatBody) (d : String)
    (hd : cfg.default_model = some d) (hm : body.model.isSome = true)
    (h : rewriteBody cfg body = some out) :
    out.model = some (some d) := by
  rw [rewriteBody_model cfg body out h, rewriteModel_model_of_isSome _ _ hm, hd]

/-- C1 witness: the amended theorem applied to a concrete request that
asks for model x while the default is m. -/
theorem C1_default_model_overwrites_witness :
    (⟨some (some "m"), some [⟨"user", "hi"⟩], []⟩ : ChatBody).model = some (some "m") :=
  C1_default_model_overwrites ⟨some "m", none, none, none⟩
    ⟨some (some "x"), some [⟨"user", "hi"⟩], []⟩
    ⟨some (some "m"), some [⟨"user", "hi"⟩], []⟩ "m" rfl rfl (by decide)

/-- C2: at the failing input (append prompt Y, no overwrite prompt, first
message content hi) the code produces the content hi followed by the TWO
characters backslash and n followed by Y, because the source wrote the
escaped literal; it does not produce hi followed by a newline followed
by Y as specified. -/
theorem C2_backslash_not_newline :
    rewriteBody ⟨none, none, none, some "Y"⟩ ⟨none, some [⟨"user", "hi"⟩], []⟩ =
      some ⟨none, some [⟨"user", "hi\\nY"⟩], []⟩ ∧
      (⟨none, some [⟨"user", "hi\\nY"⟩], []⟩ : ChatBody).messages ≠ some [⟨"user", "hi\nY"⟩] := by
  decide

/-- C3: the streaming loop forwards exactly the upstream chunk sequence,
same chunks in the same order with the same boundaries, hence the
concatenation of forwarded chunks equals the concatenation of upstream
chunks. -/
theorem C3_stream_verbatim (upstream : List String) :
    proxy_stream upstream = upstream ∧
      String.join (proxy_stream upstream) = String.join upstream := by
  have h : proxy_stream upstream = upstream := by
    induction upstream with
    | nil => rfl
    | cons chunk rest ih => rw [proxy_stream, ih]
  exact ⟨h, by rw [h]⟩

/-- C9: when no default model is configured and the inbound body contains
a model key, the rewrite still overwrites that key, setting it to None
(JSON null) instead of keeping the requested model: the model-rewrite
step yields null, and so does any forwarded body. -/
theorem C9_unset_default_gives_null (cfg : ApiConfig) (body : ChatBody)
    (hd : cfg.default_model = none) (hm : body.model.isSome = true) :
    (rewriteModel cfg.default_model body).model = some none ∧
      ∀ out, rewriteBody cfg body = some out → out.model = some none := by
  have h1 : (rewriteModel cfg.default_model body).model = some none := by
    rw [rewriteModel_model_of_isSome _ _ hm, hd]
  exact ⟨h1, fun out h => by rw [rewriteBody_model cfg body out h, h1]⟩

/-- C9 witness: with no default model, a request asking for model x has
its model field rewritten to null. -/
theorem C9_unset_default_gives_null_witness :
    (rewriteModel (none : Option String) ⟨some (some "x"), some [⟨"user", "hi"⟩], []⟩).model =
      some none :=
  (C9_unset_default_gives_null ⟨none, none, none, none⟩
    ⟨some (some "x"), some [⟨"user", "hi"⟩], []⟩ rfl rfl).1

/-- Case analysis of the messages field across the prompt rewrite: either
it is untouched, or the inbound list was non-empty and the rewrite
replaced the head keeping the tail, or it prepended one message in front
of the whole inbound list. -/
lemma rewritePrompts_messages_cases (cfg : ApiConfig) (body out : ChatBody)
    (h : rewritePrompts cfg body = some out) :
    out.messages = body.messages ∨
      ∃ m0 rest m, body.messages = some (m0 :: rest) ∧
        (out.messages = some (m :: rest) ∨ out.messages = some (m :: m0 :: rest)) := by
  unfold rewritePrompts at h
  split at h
  · split at h
    · exact absurd h (by simp)
    · exact absurd h (by simp)
    · rename_i m0 rest heq
      split at h
      · cases h
        exact Or.inr ⟨m0, rest, _, heq, Or.inl rfl⟩
      · cases h
        exact Or.inr ⟨m0, rest, _, heq, Or.inr rfl⟩
  · split at h
    · split at h
      · exact absurd h (by simp)
      · exact absurd h (by simp)
      · rename_i m0 rest heq
        cases h
        exact Or.inr ⟨m0, rest, _, heq, Or.inl rfl⟩
    · cases h
      exact Or.inl rfl

/-- C4: with an overwrite prompt X configured non-empty and a non-empty
messages list, the rewrite replaces the first message content with X
when that message has role system, and otherwise prepends a fresh system
message with content X; in both cases the remaining messages are kept
verbatim. -/
theorem C4_overwrite_prompt (cfg : ApiConfig) (body : ChatBody) (X : String)
    (m0 : Message) (rest : List Message)
    (hX : cfg.overwrite_system_prompt = some X) (hne : X ≠ "")
    (hm : body.messages = some (m0 :: rest)) :
    ∃ out, rewriteBody cfg body = some out ∧
      out.messages = some (if m0.role = "system" then { m0 with content := X } :: rest
        else ⟨"system", X⟩ :: m0 :: rest) := by
  have hpX : promptActive (some X) = true := by
    simp [promptActive, pyTruthyStr, pyNeEmptyStr, hne]
  simp only [rewriteBody, rewritePrompts, hX, hpX, if_true, rewriteModel_messages, hm,
    Option.getD_some]
  by_cases hrole : m0.role = "system"
  · rw [if_pos hrole, if_pos hrole]
    exact ⟨_, rfl, rfl⟩
  · rw [if_neg hrole, if_neg hrole]
    exact ⟨_, rfl, rfl⟩

/-- C4 witness: the theorem applied to a request from a user-role message
with the overwrite prompt X; the rewrite succeeds. -/
theorem C4_overwrite_prompt_witness :
    (rewriteBody ⟨none, none, some "X", none⟩ ⟨none, some [⟨"user", "hi"⟩], []⟩).isSome = true := by
  obtain ⟨out, h1, h2⟩ := C4_overwrite_prompt ⟨none, none, some "X", none⟩
    ⟨none, some [⟨"user", "hi"⟩], []⟩ "X" ⟨"user", "hi"⟩ [] rfl (by decide) rfl
  rw [h1]
  rfl

/-- C5: when the overwrite prompt is configured non-empty, the rewritten
body is the same whatever the append prompt is set to, so the append
prompt has no effect on the forwarded request. -/
theorem C5_overwrite_precedence (cfg : ApiConfig) (body : ChatBody) (X : String)
    (hX : cfg.overwrite_system_prompt = some X) (hne : X ≠ "") (a b : Option String) :
    rewriteBody { cfg with append_system_prompt := a } body =
      rewriteBody { cfg with append_system_prompt := b } body := by
  have hp : promptActive cfg.overwrite_system_prompt = true := by
    simp [promptActive, pyTruthyStr, pyNeEmptyStr, hX, hne]
  simp only [rewriteBody, rewritePrompts, hp, if_true]

/-- C5 witness: with overwrite prompt X, configuring append prompt Y or
leaving it unset yields the same rewritten body. -/
theorem C5_overwrite_precedence_witness :
    rewriteBody ⟨none, none, some "X", some "Y"⟩ ⟨none, some [⟨"user", "hi"⟩], []⟩ =
      rewriteBody ⟨none, none, some "X", none⟩ ⟨none, some [⟨"user", "hi"⟩], []⟩ :=
  C5_overwrite_precedence ⟨none, none, some "X", none⟩ ⟨none, some [⟨"user", "hi"⟩], []⟩
    "X" rfl (by decide) (some "Y") none

/-- C6: the outbound headers carry an Authorization entry with value
Bearer followed by the key exactly when the API key is a set, non-empty
string; when it is unset or empty the header dictionary stays empty. -/
theorem C6_auth_header (API_KEY : Option String) :
    (∃ k, API_KEY = some k ∧ k ≠ "" ∧
        proxy_headers API_KEY = [("Authorization", "Bearer " ++ k)]) ∨
      ((API_KEY = none ∨ API_KEY = some "") ∧ proxy_headers API_KEY = []) := by
  cases API_KEY with
  | none => exact Or.inr ⟨Or.inl rfl, by decide⟩
  | some k =>
    by_cases hk : k = ""
    · subst hk
      exact Or.inr ⟨Or.inr rfl, by decide⟩
    · exact Or.inl ⟨k, rfl, hk, by simp [proxy_headers, pyTruthyStr, pyNeEmptyStr, hk]⟩

/-- C7: when at least one prompt rewrite is active and the inbound body
lacks a messages key or has an empty messages list, the rewrite step
faults (returns none) and no request body is forwarded. -/
theorem C7_missing_messages_faults (cfg : ApiConfig) (body : ChatBody)
    (hp : promptActive cfg.overwrite_system_prompt = true ∨
      promptActive cfg.append_system_prompt = true)
    (hm : body.messages = none ∨ body.messages = some []) :
    rewriteBody cfg body = none := by
  have hmsg : (rewriteModel cfg.default_model body).messages = none ∨
      (rewriteModel cfg.default_model body).messages = some [] := by
    rw [rewriteModel_messages]
    exact hm
  unfold rewriteBody rewritePrompts
  rcases hp with hov | hap
  · rw [if_pos hov]
    rcases hmsg with h1 | h1 <;> rw [h1]
  · by_cases hov : promptActive cfg.overwrite_system_prompt = true
    · rw [if_pos hov]
      rcases hmsg with h1 | h1 <;> rw [h1]
    · rw [if_neg hov, if_pos hap]
      rcases hmsg with h1 | h1 <;> rw [h1]

/-- C7 witness: with overwrite prompt X configured and a body with no
messages key, the rewrite faults. -/
theorem C7_missing_messages_faults_witness :
    rewriteBody ⟨none, none, some "X", none⟩ ⟨none, none, []⟩ = none :=
  C7_missing_messages_faults ⟨none, none, some "X", none⟩ ⟨none, none, []⟩
    (Or.inl (by decide)) (Or.inl rfl)

/-- C8: every body the rewrite forwards keeps all top-level fields other
than model and messages exactly as received, a body without a messages
key keeps none, and when messages were present the inbound messages
after the first reappear unchanged: the forwarded list is either the
inbound list, or a list with a new head over the same tail, or a list
with one message prepended in front of the whole inbound list. -/
theorem C8_frame (cfg : ApiConfig) (body out : ChatBody)
    (h : rewriteBody cfg body = some out) :
    out.extra = body.extra ∧
      (body.messages = none → out.messages = none) ∧
      (∀ msgs, body.messages = some msgs →
        ∃ outMsgs, out.messages = some outMsgs ∧
          (outMsgs.tail = msgs.tail ∨ outMsgs.tail = msgs)) := by
  unfold rewriteBody at h
  have he : out.extra = body.extra := by
    rw [rewritePrompts_extra cfg _ out h, rewriteModel_extra]
  have hmc := rewritePrompts_messages_cases cfg _ out h
  rw [rewriteModel_messages] at hmc
  rcases hmc with h1 | ⟨m0, rest, m, hbm, h2⟩
  · refine ⟨he, ?_, ?_⟩
    · intro hn
      rw [h1, hn]
    · intro msgs hmsgs
      exact ⟨msgs, by rw [h1, hmsgs], Or.inl rfl⟩
  · refine ⟨he, ?_, ?_⟩
    · intro hn
      rw [hn] at hbm
      cases hbm
    · intro msgs hmsgs
      rw [hbm] at hmsgs
      injection hmsgs with h4
      subst h4
      rcases h2 with h3 | h3
      · exact ⟨m :: rest, h3, Or.inl rfl⟩
      · exact ⟨m :: m0 :: rest, h3, Or.inr rfl⟩

/-- C8 witness: a body carrying a temperature field keeps it across the
rewrite. -/
theorem C8_frame_witness :
    (⟨none, some [⟨"user", "hi"⟩], [("temperature", "0.7")]⟩ : ChatBody).extra =
      [("temperature", "0.7")] :=
  (C8_frame ⟨none, none, none, none⟩
    ⟨none, some [⟨"user", "hi"⟩], [("temperature", "0.7")]⟩
    ⟨none, some [⟨"user", "hi"⟩], [("temperature", "0.7")]⟩ (by decide)).1

/-- C10: when neither prompt is configured non-empty the rewrite never
reads the messages field, so it succeeds on any body, including one with
a missing messages key or an empty list, and forwards that field
unchanged. -/
theorem C10_no_prompt_skips_messages (cfg : ApiConfig) (body : ChatBody)
    (ho : promptActive cfg.overwrite_system_prompt = false)
    (ha : promptActive cfg.append_system_prompt = false) :
    ∃ out, rewriteBody cfg body = some out ∧ out.messages = body.messages := by
  refine ⟨rewriteModel cfg.default_model body, ?_, rewriteModel_messages _ _⟩
  unfold rewriteBody rewritePrompts
  simp [ho, ha]

/-- C10 witness: with no prompts configured, a body whose messages key is
absent is still rewritten successfully. -/
theorem C10_no_prompt_skips_messages_witness :
    (rewriteBody ⟨none, none, none, none⟩ ⟨none, none, [("stream", "true")]⟩).isSome = true := by
  obtain ⟨out, h1, h2⟩ := C10_no_prompt_skips_messages ⟨none, none, none, none⟩
    ⟨none, none, [("stream", "true")]⟩ rfl rfl
  rw [h1]
  rfl

end Proxy
